import Mathlib

/-!
# Verification of the K*(892) → K0s γ candidate selector and pairer

Shallow embedding of the selection-and-pairing logic of
`PWGLF/Tasks/Resonances/kstarToK0Gamma.cxx` (struct `KstarToK0Gamma`):
the per-candidate cut evaluation `isV0Selected`, the classification
driver `analyseV0Candidate`, the daughter-track disjointness check
`checkTrackIndices`, the combinatorial pairer `buildV0V0Pairs`, and the
rapidity gate of `analyseV0PairCandidate`.

Machine floats are modelled by `ℚ`; the separate `FP := Option ℚ` model
(`none` = NaN) is used where IEEE NaN comparison semantics matter.
The embedding is the real-data instantiation (`processRealData`): the
`constexpr`-guarded MC-association blocks, whose `requires`-check fails
there, are absent.  Histogram filling is a reporting side effect outside
the embedded logic; where a function only fills histograms after its
cuts, the embedding returns whether that reporting point is reached.
-/

set_option maxHeartbeats 1000000

namespace KstarK0Gamma

/-- `o2::constants::physics::MassK0Short` (GeV/c²), an external physical
constant used by the mass-window and lifetime cuts. -/
def massK0Short : ℚ := 497611 / 1000000

/-- `o2::constants::physics::MassLambda0` (GeV/c²), used by the
competing-mass rejection. -/
def massLambda0 : ℚ := 1115683 / 1000000

/-- `o2::aod::track::TPC`: the TPC flag of the detector map, compared with
`==` only, so any fixed value faithfully represents it. -/
def trackDetectorMapTPC : ℤ := 2

/-- Daughter-track columns read through `posTrackExtra_as` /
`negTrackExtra_as` (`DauTrackExtras` + `DauTrackTPCPIDs`). -/
structure DauTrackExtra where
  itsChi2PerNcl : ℚ
  itsNCls : ℤ
  tpcCrossedRows : ℤ
  detectorMap : ℤ
  tpcNSigmaPi : ℚ
  tpcNSigmaEl : ℚ

/-- One V0 candidate row: the derived scalars of the `V0Candidates` join
read by the task, with its two daughter-track rows inlined.
`distovertotmom` is the dynamic column `v0.distovertotmom(collision.posX(),
collision.posY(), collision.posZ())` evaluated at the collision primary
vertex (the only way the collision enters `isV0Selected`). -/
structure V0Cand where
  posTrackExtraId : ℤ
  negTrackExtraId : ℤ
  z : ℚ
  negativeeta : ℚ
  positiveeta : ℚ
  v0Type : ℤ
  v0radius : ℚ
  dcapostopv : ℚ
  dcanegtopv : ℚ
  v0cosPA : ℚ
  dcaV0daughters : ℚ
  dcav0topv : ℚ
  mGamma : ℚ
  mK0Short : ℚ
  mLambda : ℚ
  qtarm : ℚ
  alpha : ℚ
  posTOFDeltaTK0Pi : ℚ
  negTOFDeltaTK0Pi : ℚ
  tofNSigmaK0PiPlus : ℚ
  tofNSigmaK0PiMinus : ℚ
  distovertotmom : ℚ
  k0ShortBDTScore : ℚ
  antiLambdaBDTScore : ℚ
  posTrackExtra : DauTrackExtra
  negTrackExtra : DauTrackExtra

/-- The `v0Selections` configurable group (K0-short-like threshold set). -/
structure V0SelectionConfig where
  v0TypeSelection : ℤ
  daughterEtaCut : ℚ
  v0cospa : ℚ
  dcav0dau : ℚ
  dcav0topv : ℚ
  dcapostopv : ℚ
  dcanegtopv : ℚ
  v0radius : ℚ
  v0radiusMax : ℚ
  lifetimeCut : ℚ
  v0MassWindow : ℚ
  compMassRejection : ℚ
  armPodCut : ℚ
  minTPCrows : ℤ
  minITSclusters : ℤ
  skipTPConly : Bool
  requirePosITSonly : Bool
  requireNegITSonly : Bool
  rejectPosITSafterburner : Bool
  rejectNegITSafterburner : Bool
  tpcPidNsigmaCut : ℚ
  tofPidNsigmaCutK0Pi : ℚ
  maxDeltaTimePion : ℚ

/-- The `photonSelections` configurable group (photon-like threshold set). -/
structure PhotonSelectionConfig where
  v0TypeSelection : ℤ
  daughterEtaCut : ℚ
  photonZMax : ℚ
  v0cospa : ℚ
  dcav0dau : ℚ
  dcav0topv : ℚ
  dcanegtopv : ℚ
  dcapostopv : ℚ
  v0radius : ℚ
  v0radiusMax : ℚ
  photonMassMax : ℚ
  armPodCut : ℚ
  minTPCrows : ℤ
  minITSclusters : ℤ
  skipTPConly : Bool
  requirePosITSonly : Bool
  requireNegITSonly : Bool
  rejectPosITSafterburner : Bool
  rejectNegITSafterburner : Bool
  tpcPidNsigmaCut : ℚ

/-- `KstarToK0Gamma::isV0Selected(v0, collision, isPhoton)`, real-data
instantiation.  The configs are the task's `v0Selections` and
`photonSelections` members.  The source returns `uint64_t` holding
`true`/`false`; the embedding returns `Bool`.  Each `if (cond) return
false;` of the source appears in order.  Note the source's K0-short
branch reads `photonSelections.daughterEtaCut` and
`photonSelections.v0TypeSelection` for its two acceptance cuts. -/
def isV0Selected (v0Sel : V0SelectionConfig) (photonSel : PhotonSelectionConfig)
    (v0 : V0Cand) (isPhoton : Bool) : Bool :=
  if isPhoton then
    -- Acceptance variables
    if v0.z > photonSel.photonZMax then false
    else if |v0.negativeeta| > photonSel.daughterEtaCut ∨ |v0.positiveeta| > photonSel.daughterEtaCut then false
    else if photonSel.v0TypeSelection > -1 ∧ v0.v0Type ≠ photonSel.v0TypeSelection then false
    -- Base topological variables
    else if v0.v0radius < photonSel.v0radius then false
    else if v0.v0radius > photonSel.v0radiusMax then false
    else if |v0.dcapostopv| < photonSel.dcapostopv then false
    else if |v0.dcanegtopv| > photonSel.dcanegtopv then false
    else if v0.v0cosPA < photonSel.v0cospa then false
    else if v0.dcaV0daughters > photonSel.dcav0dau then false
    else if v0.dcav0topv < photonSel.dcav0topv then false
    -- invariant mass selection
    else if v0.mGamma > photonSel.photonMassMax then false
    -- ITS quality flags
    else if v0.posTrackExtra.itsNCls < photonSel.minITSclusters then false
    else if v0.negTrackExtra.itsNCls < photonSel.minITSclusters then false
    else if photonSel.rejectPosITSafterburner ∧ v0.posTrackExtra.itsChi2PerNcl < 0 then false
    else if photonSel.rejectNegITSafterburner ∧ v0.negTrackExtra.itsChi2PerNcl < 0 then false
    -- TPC quality flags
    else if v0.posTrackExtra.tpcCrossedRows < photonSel.minTPCrows then false
    else if v0.negTrackExtra.tpcCrossedRows < photonSel.minTPCrows then false
    -- TPC PID
    else if |v0.posTrackExtra.tpcNSigmaEl| > photonSel.tpcPidNsigmaCut then false
    else if |v0.negTrackExtra.tpcNSigmaEl| > photonSel.tpcPidNsigmaCut then false
    -- ITS only tag
    else if photonSel.requirePosITSonly ∧ v0.posTrackExtra.tpcCrossedRows > 0 then false
    else if photonSel.requireNegITSonly ∧ v0.negTrackExtra.tpcCrossedRows > 0 then false
    -- TPC only tag
    else if photonSel.skipTPConly ∧ v0.posTrackExtra.detectorMap = trackDetectorMapTPC then false
    else if photonSel.skipTPConly ∧ v0.negTrackExtra.detectorMap = trackDetectorMapTPC then false
    -- armenteros
    else if photonSel.armPodCut > 1/10000 ∧ v0.qtarm * photonSel.armPodCut < |v0.alpha| then false
    else true
  else
    -- Acceptance variables (source reads the photonSelections group here)
    if |v0.negativeeta| > photonSel.daughterEtaCut ∨ |v0.positiveeta| > photonSel.daughterEtaCut then false
    else if photonSel.v0TypeSelection > -1 ∧ v0.v0Type ≠ photonSel.v0TypeSelection then false
    -- Base topological variables
    else if v0.v0radius < v0Sel.v0radius then false
    else if v0.v0radius > v0Sel.v0radiusMax then false
    else if |v0.dcapostopv| < v0Sel.dcapostopv then false
    else if |v0.dcanegtopv| > v0Sel.dcanegtopv then false
    else if v0.v0cosPA < v0Sel.v0cospa then false
    else if v0.dcaV0daughters > v0Sel.dcav0dau then false
    else if v0.dcav0topv < v0Sel.dcav0topv then false
    -- invariant mass window
    else if |v0.mK0Short - massK0Short| > v0Sel.v0MassWindow then false
    -- competing mass rejection
    else if |v0.mLambda - massLambda0| < v0Sel.compMassRejection then false
    -- ITS quality flags
    else if v0.posTrackExtra.itsNCls < v0Sel.minITSclusters then false
    else if v0.negTrackExtra.itsNCls < v0Sel.minITSclusters then false
    else if v0Sel.rejectPosITSafterburner ∧ v0.posTrackExtra.itsChi2PerNcl < 0 then false
    else if v0Sel.rejectNegITSafterburner ∧ v0.negTrackExtra.itsChi2PerNcl < 0 then false
    -- TPC quality flags
    else if v0.posTrackExtra.tpcCrossedRows < v0Sel.minTPCrows then false
    else if v0.negTrackExtra.tpcCrossedRows < v0Sel.minTPCrows then false
    -- TPC PID
    else if |v0.posTrackExtra.tpcNSigmaPi| > v0Sel.tpcPidNsigmaCut then false
    else if |v0.negTrackExtra.tpcNSigmaPi| > v0Sel.tpcPidNsigmaCut then false
    -- TOF PID in DeltaT
    else if |v0.posTOFDeltaTK0Pi| > v0Sel.maxDeltaTimePion then false
    else if |v0.negTOFDeltaTK0Pi| > v0Sel.maxDeltaTimePion then false
    -- TOF PID in NSigma
    else if |v0.tofNSigmaK0PiPlus| > v0Sel.tofPidNsigmaCutK0Pi then false
    else if |v0.tofNSigmaK0PiMinus| > v0Sel.tofPidNsigmaCutK0Pi then false
    -- ITS only tag
    else if v0Sel.requirePosITSonly ∧ v0.posTrackExtra.tpcCrossedRows > 0 then false
    else if v0Sel.requireNegITSonly ∧ v0.negTrackExtra.tpcCrossedRows > 0 then false
    -- TPC only tag
    else if v0Sel.skipTPConly ∧ v0.posTrackExtra.detectorMap = trackDetectorMapTPC then false
    else if v0Sel.skipTPConly ∧ v0.negTrackExtra.detectorMap = trackDetectorMapTPC then false
    -- proper lifetime
    else if v0.distovertotmom * massK0Short > v0Sel.lifetimeCut then false
    -- armenteros
    else if v0Sel.armPodCut > 1/10000 ∧ v0.qtarm * v0Sel.armPodCut < |v0.alpha| then false
    else true

/-- The ML sub-configuration of the `mlConfigurations` group read by
`analyseV0Candidate` (fields feeding other particle species omitted). -/
structure MlConfigurations where
  useK0ShortScores : Bool
  useGammaScores : Bool
  calculateK0ShortScores : Bool
  calculateGammaScores : Bool
  thresholdK0Short : ℚ
  thresholdGamma : ℚ

/-- `KstarToK0Gamma::analyseV0Candidate`, reduced to the pair
`(passK0ShortSelections, passGammaSelections)` it stores into the two
mask vectors.  `k0ShortModelScore` / `gammaModelScore` stand for
`evalModel(inputFeatures)[1]` of the local ONNX models (external
inference results, opaque inputs here). -/
def analyseV0Candidate (ml : MlConfigurations) (v0Sel : V0SelectionConfig)
    (photonSel : PhotonSelectionConfig) (v0 : V0Cand)
    (k0ShortModelScore gammaModelScore : ℚ) : Bool × Bool :=
  let passK0ShortSelections :=
    if ml.useK0ShortScores then
      let k0shortScore :=
        if ml.calculateK0ShortScores then k0ShortModelScore else v0.k0ShortBDTScore
      decide (k0shortScore > ml.thresholdK0Short)
    else
      isV0Selected v0Sel photonSel v0 false
  let passGammaSelections :=
    if ml.useGammaScores then
      let gammaScore :=
        if ml.calculateGammaScores then gammaModelScore else v0.antiLambdaBDTScore
      decide (gammaScore > ml.thresholdGamma)
    else
      isV0Selected v0Sel photonSel v0 true
  (passK0ShortSelections, passGammaSelections)

/-- `KstarToK0Gamma::checkTrackIndices(k0short, gamma)`: daughter-track
references of the two candidates are pairwise different. -/
def checkTrackIndices (k0short gamma : V0Cand) : Bool :=
  if k0short.posTrackExtraId = gamma.posTrackExtraId ∨
      k0short.posTrackExtraId = gamma.negTrackExtraId then false
  else if k0short.negTrackExtraId = gamma.posTrackExtraId ∨
      k0short.negTrackExtraId = gamma.negTrackExtraId then false
  else true

/-- A default row, only used to give `List.getD` a value at in-range
indices (never actually selected). -/
def defaultV0 : V0Cand :=
  ⟨0, 0, 0, 0, 0, 0, 0, 0, 0, 0, 0, 0, 0, 0, 0, 0, 0, 0, 0, 0, 0, 0, 0, 0,
   ⟨0, 0, 0, 0, 0, 0⟩, ⟨0, 0, 0, 0, 0, 0⟩⟩

/-- `KstarToK0Gamma::buildV0V0Pairs`, returning the sequence of
(k0short, gamma) local-index pairs for which the source reaches
`analyseV0PairCandidate`.  The batch is the grouped `fullV0s` table: row
`i` has `globalIndex() = fullV0s.offset() + i`, so the source's mask
lookups `globalIndex() - offset()` and its same-candidate test
`k0short.globalIndex() == gamma.globalIndex()` act on list positions. -/
def buildV0V0Pairs (fullV0s : List V0Cand)
    (selK0ShortIndices selGammaIndices : List Bool) : List (ℕ × ℕ) :=
  (List.range fullV0s.length).flatMap fun i =>
    -- 1st loop over all v0s: select only v0s matching K0Short selections
    if selK0ShortIndices.getD i false then
      -- 2nd loop over all v0s
      (List.range fullV0s.length).filterMap fun j =>
        -- select only v0s matching gamma selections
        if selGammaIndices.getD j false then
          -- check we don't look at the same v0s
          if i = j then none
          -- check that the two v0s have different daughter tracks
          else if checkTrackIndices (fullV0s.getD i defaultV0) (fullV0s.getD j defaultV0) then
            some (i, j)
          else none
        else none
    else []

/-- The rapidity gate of `KstarToK0Gamma::analyseV0PairCandidate` in the
real-data instantiation (no MC-truth tables joined, so the
`constexpr`-guarded MC block is absent): whether the function reaches
its histogram-filling calls.  `rapidity` is the value the source
computes by `RecoDecay::y` from the summed daughter momenta; it is an
input here since its formula is transcendental and every downstream
decision depends on it only through this comparison. -/
def analyseV0PairCandidateReports (doMCAssociation : Bool)
    (rapidityCut rapidity : ℚ) : Bool :=
  if doMCAssociation = false ∧ |rapidity| > rapidityCut then false
  else true

/-- Machine float with NaN: `none` models an IEEE-754 NaN, `some x` a
finite value.  Used to check the NaN behaviour of the cut comparisons. -/
abbrev FP := Option ℚ

/-- `<` between two floats: false whenever either side is NaN. -/
def fpLt : FP → FP → Bool
  | some x, some y => decide (x < y)
  | _, _ => false

/-- `<` against a finite threshold: false when the left side is NaN. -/
def fpLtQ : FP → ℚ → Bool
  | some x, c => decide (x < c)
  | none, _ => false

/-- `>` against a finite threshold: false when the left side is NaN. -/
def fpGtQ : FP → ℚ → Bool
  | some x, c => decide (x > c)
  | none, _ => false

/-- `std::fabs`: NaN maps to NaN. -/
def fpAbs : FP → FP
  | some x => some |x|
  | none => none

/-- Float minus finite constant: NaN propagates. -/
def fpSubQ : FP → ℚ → FP
  | some x, c => some (x - c)
  | none, _ => none

/-- Float times finite constant: NaN propagates. -/
def fpMulQ : FP → ℚ → FP
  | some x, c => some (x * c)
  | none, _ => none

/-- Daughter-track columns with float fields that may be NaN. -/
structure DauTrackExtraFP where
  itsChi2PerNcl : FP
  itsNCls : ℤ
  tpcCrossedRows : ℤ
  detectorMap : ℤ
  tpcNSigmaPi : FP
  tpcNSigmaEl : FP

/-- A V0 candidate row whose float-valued scalars may be NaN. -/
structure V0CandFP where
  posTrackExtraId : ℤ
  negTrackExtraId : ℤ
  z : FP
  negativeeta : FP
  positiveeta : FP
  v0Type : ℤ
  v0radius : FP
  dcapostopv : FP
  dcanegtopv : FP
  v0cosPA : FP
  dcaV0daughters : FP
  dcav0topv : FP
  mGamma : FP
  mK0Short : FP
  mLambda : FP
  qtarm : FP
  alpha : FP
  posTOFDeltaTK0Pi : FP
  negTOFDeltaTK0Pi : FP
  tofNSigmaK0PiPlus : FP
  tofNSigmaK0PiMinus : FP
  distovertotmom : FP
  k0ShortBDTScore : FP
  antiLambdaBDTScore : FP
  posTrackExtra : DauTrackExtraFP
  negTrackExtra : DauTrackExtraFP

/-- Embed a NaN-free daughter-track row into the NaN-aware model. -/
def DauTrackExtra.toFP (t : DauTrackExtra) : DauTrackExtraFP :=
  ⟨some t.itsChi2PerNcl, t.itsNCls, t.tpcCrossedRows, t.detectorMap,
   some t.tpcNSigmaPi, some t.tpcNSigmaEl⟩

/-- Embed a NaN-free candidate into the NaN-aware model. -/
def V0Cand.toFP (v0 : V0Cand) : V0CandFP :=
  ⟨v0.posTrackExtraId, v0.negTrackExtraId, some v0.z, some v0.negativeeta,
   some v0.positiveeta, v0.v0Type, some v0.v0radius, some v0.dcapostopv,
   some v0.dcanegtopv, some v0.v0cosPA, some v0.dcaV0daughters,
   some v0.dcav0topv, some v0.mGamma, some v0.mK0Short, some v0.mLambda,
   some v0.qtarm, some v0.alpha, some v0.posTOFDeltaTK0Pi,
   some v0.negTOFDeltaTK0Pi, some v0.tofNSigmaK0PiPlus,
   some v0.tofNSigmaK0PiMinus, some v0.distovertotmom,
   some v0.k0ShortBDTScore, some v0.antiLambdaBDTScore,
   v0.posTrackExtra.toFP, v0.negTrackExtra.toFP⟩

/-- `KstarToK0Gamma::isV0Selected` over the NaN-aware float model: the
same cut chain as `isV0Selected`, with every float comparison given the
IEEE semantics (any comparison involving NaN is false, `fabs` and
arithmetic propagate NaN).  Thresholds come from finite configurables. -/
def isV0SelectedFP (v0Sel : V0SelectionConfig) (photonSel : PhotonSelectionConfig)
    (v0 : V0CandFP) (isPhoton : Bool) : Bool :=
  if isPhoton then
    -- Acceptance variables
    if fpGtQ v0.z photonSel.photonZMax then false
    else if fpGtQ (fpAbs v0.negativeeta) photonSel.daughterEtaCut ∨ fpGtQ (fpAbs v0.positiveeta) photonSel.daughterEtaCut then false
    else if photonSel.v0TypeSelection > -1 ∧ v0.v0Type ≠ photonSel.v0TypeSelection then false
    -- Base topological variables
    else if fpLtQ v0.v0radius photonSel.v0radius then false
    else if fpGtQ v0.v0radius photonSel.v0radiusMax then false
    else if fpLtQ (fpAbs v0.dcapostopv) photonSel.dcapostopv then false
    else if fpGtQ (fpAbs v0.dcanegtopv) photonSel.dcanegtopv then false
    else if fpLtQ v0.v0cosPA photonSel.v0cospa then false
    else if fpGtQ v0.dcaV0daughters photonSel.dcav0dau then false
    else if fpLtQ v0.dcav0topv photonSel.dcav0topv then false
    -- invariant mass selection
    else if fpGtQ v0.mGamma photonSel.photonMassMax then false
    -- ITS quality flags
    else if v0.posTrackExtra.itsNCls < photonSel.minITSclusters then false
    else if v0.negTrackExtra.itsNCls < photonSel.minITSclusters then false
    else if photonSel.rejectPosITSafterburner ∧ fpLtQ v0.posTrackExtra.itsChi2PerNcl 0 then false
    else if photonSel.rejectNegITSafterburner ∧ fpLtQ v0.negTrackExtra.itsChi2PerNcl 0 then false
    -- TPC quality flags
    else if v0.posTrackExtra.tpcCrossedRows < photonSel.minTPCrows then false
    else if v0.negTrackExtra.tpcCrossedRows < photonSel.minTPCrows then false
    -- TPC PID
    else if fpGtQ (fpAbs v0.posTrackExtra.tpcNSigmaEl) photonSel.tpcPidNsigmaCut then false
    else if fpGtQ (fpAbs v0.negTrackExtra.tpcNSigmaEl) photonSel.tpcPidNsigmaCut then false
    -- ITS only tag
    else if photonSel.requirePosITSonly ∧ v0.posTrackExtra.tpcCrossedRows > 0 then false
    else if photonSel.requireNegITSonly ∧ v0.negTrackExtra.tpcCrossedRows > 0 then false
    -- TPC only tag
    else if photonSel.skipTPConly ∧ v0.posTrackExtra.detectorMap = trackDetectorMapTPC then false
    else if photonSel.skipTPConly ∧ v0.negTrackExtra.detectorMap = trackDetectorMapTPC then false
    -- armenteros
    else if photonSel.armPodCut > 1/10000 ∧ fpLt (fpMulQ v0.qtarm photonSel.armPodCut) (fpAbs v0.alpha) then false
    else true
  else
    -- Acceptance variables (source reads the photonSelections group here)
    if fpGtQ (fpAbs v0.negativeeta) photonSel.daughterEtaCut ∨ fpGtQ (fpAbs v0.positiveeta) photonSel.daughterEtaCut then false
    else if photonSel.v0TypeSelection > -1 ∧ v0.v0Type ≠ photonSel.v0TypeSelection then false
    -- Base topological variables
    else if fpLtQ v0.v0radius v0Sel.v0radius then false
    else if fpGtQ v0.v0radius v0Sel.v0radiusMax then false
    else if fpLtQ (fpAbs v0.dcapostopv) v0Sel.dcapostopv then false
    else if fpGtQ (fpAbs v0.dcanegtopv) v0Sel.dcanegtopv then false
    else if fpLtQ v0.v0cosPA v0Sel.v0cospa then false
    else if fpGtQ v0.dcaV0daughters v0Sel.dcav0dau then false
    else if fpLtQ v0.dcav0topv v0Sel.dcav0topv then false
    -- invariant mass window
    else if fpGtQ (fpAbs (fpSubQ v0.mK0Short massK0Short)) v0Sel.v0MassWindow then false
    -- competing mass rejection
    else if fpLtQ (fpAbs (fpSubQ v0.mLambda massLambda0)) v0Sel.compMassRejection then false
    -- ITS quality flags
    else if v0.posTrackExtra.itsNCls < v0Sel.minITSclusters then false
    else if v0.negTrackExtra.itsNCls < v0Sel.minITSclusters then false
    else if v0Sel.rejectPosITSafterburner ∧ fpLtQ v0.posTrackExtra.itsChi2PerNcl 0 then false
    else if v0Sel.rejectNegITSafterburner ∧ fpLtQ v0.negTrackExtra.itsChi2PerNcl 0 then false
    -- TPC quality flags
    else if v0.posTrackExtra.tpcCrossedRows < v0Sel.minTPCrows then false
    else if v0.negTrackExtra.tpcCrossedRows < v0Sel.minTPCrows then false
    -- TPC PID
    else if fpGtQ (fpAbs v0.posTrackExtra.tpcNSigmaPi) v0Sel.tpcPidNsigmaCut then false
    else if fpGtQ (fpAbs v0.negTrackExtra.tpcNSigmaPi) v0Sel.tpcPidNsigmaCut then false
    -- TOF PID in DeltaT
    else if fpGtQ (fpAbs v0.posTOFDeltaTK0Pi) v0Sel.maxDeltaTimePion then false
    else if fpGtQ (fpAbs v0.negTOFDeltaTK0Pi) v0Sel.maxDeltaTimePion then false
    -- TOF PID in NSigma
    else if fpGtQ (fpAbs v0.tofNSigmaK0PiPlus) v0Sel.tofPidNsigmaCutK0Pi then false
    else if fpGtQ (fpAbs v0.tofNSigmaK0PiMinus) v0Sel.tofPidNsigmaCutK0Pi then false
    -- ITS only tag
    else if v0Sel.requirePosITSonly ∧ v0.posTrackExtra.tpcCrossedRows > 0 then false
    else if v0Sel.requireNegITSonly ∧ v0.negTrackExtra.tpcCrossedRows > 0 then false
    -- TPC only tag
    else if v0Sel.skipTPConly ∧ v0.posTrackExtra.detectorMap = trackDetectorMapTPC then false
    else if v0Sel.skipTPConly ∧ v0.negTrackExtra.detectorMap = trackDetectorMapTPC then false
    -- proper lifetime
    else if fpGtQ (fpMulQ v0.distovertotmom massK0Short) v0Sel.lifetimeCut then false
    -- armenteros
    else if v0Sel.armPodCut > 1/10000 ∧ fpLt (fpMulQ v0.qtarm v0Sel.armPodCut) (fpAbs v0.alpha) then false
    else true

/-- A K0-short-like threshold set with the task defaults. -/
def testV0Sel : V0SelectionConfig :=
  { v0TypeSelection := 1
    daughterEtaCut := 4/5
    v0cospa := 97/100
    dcav0dau := 1
    dcav0topv := 1/20
    dcapostopv := 1/20
    dcanegtopv := 1/20
    v0radius := 6/5
    v0radiusMax := 100000
    lifetimeCut := 20
    v0MassWindow := 1/125
    compMassRejection := 1/125
    armPodCut := 5
    minTPCrows := 70
    minITSclusters := -1
    skipTPConly := false
    requirePosITSonly := false
    requireNegITSonly := false
    rejectPosITSafterburner := false
    rejectNegITSafterburner := false
    tpcPidNsigmaCut := 5
    tofPidNsigmaCutK0Pi := 1000000
    maxDeltaTimePion := 1000000000 }

/-- A photon-like threshold set with the task defaults. -/
def testPhotonSel : PhotonSelectionConfig :=
  { v0TypeSelection := 1
    daughterEtaCut := 4/5
    photonZMax := 240
    v0cospa := 97/100
    dcav0dau := 1
    dcav0topv := 1/20
    dcanegtopv := 1/20
    dcapostopv := 1/20
    v0radius := 6/5
    v0radiusMax := 100000
    photonMassMax := 1/125
    armPodCut := 5
    minTPCrows := 70
    minITSclusters := -1
    skipTPConly := false
    requirePosITSonly := false
    requireNegITSonly := false
    rejectPosITSafterburner := false
    rejectNegITSafterburner := false
    tpcPidNsigmaCut := 5 }

/-- A candidate passing every cut of both categories under `testV0Sel`
and `testPhotonSel`. -/
def testCand : V0Cand :=
  { posTrackExtraId := 101
    negTrackExtraId := 102
    z := 100
    negativeeta := 1/10
    positiveeta := 1/10
    v0Type := 1
    v0radius := 5
    dcapostopv := 1
    dcanegtopv := 1/100
    v0cosPA := 999/1000
    dcaV0daughters := 1/2
    dcav0topv := 1
    mGamma := 1/1000
    mK0Short := 497611/1000000
    mLambda := 2
    qtarm := 1/5
    alpha := 1/10
    posTOFDeltaTK0Pi := 0
    negTOFDeltaTK0Pi := 0
    tofNSigmaK0PiPlus := 0
    tofNSigmaK0PiMinus := 0
    distovertotmom := 10
    k0ShortBDTScore := 1/2
    antiLambdaBDTScore := 1/2
    posTrackExtra := ⟨2, 5, 100, 3, 1, 1⟩
    negTrackExtra := ⟨2, 5, 100, 3, 1, 1⟩ }

/-- Rewriting step for one `if (cond) return false;` layer of a cut chain. -/
theorem ite_reject {c : Prop} [Decidable c] {r : Bool} :
    ((if c then false else r) = true) ↔ (¬c ∧ r = true) := by
  split_ifs with h <;> simp [h]

/-- The K0-short-like branch of `isV0Selected` passes iff no rejection
condition fires, listed in source order. -/
theorem isV0Selected_k0_iff (v0Sel : V0SelectionConfig) (photonSel : PhotonSelectionConfig) (v0 : V0Cand) :
    isV0Selected v0Sel photonSel v0 false = true ↔
      (¬(|v0.negativeeta| > photonSel.daughterEtaCut ∨ |v0.positiveeta| > photonSel.daughterEtaCut)
      ∧ ¬(photonSel.v0TypeSelection > -1 ∧ v0.v0Type ≠ photonSel.v0TypeSelection)
      ∧ ¬(v0.v0radius < v0Sel.v0radius)
      ∧ ¬(v0.v0radius > v0Sel.v0radiusMax)
      ∧ ¬(|v0.dcapostopv| < v0Sel.dcapostopv)
      ∧ ¬(|v0.dcanegtopv| > v0Sel.dcanegtopv)
      ∧ ¬(v0.v0cosPA < v0Sel.v0cospa)
      ∧ ¬(v0.dcaV0daughters > v0Sel.dcav0dau)
      ∧ ¬(v0.dcav0topv < v0Sel.dcav0topv)
      ∧ ¬(|v0.mK0Short - massK0Short| > v0Sel.v0MassWindow)
      ∧ ¬(|v0.mLambda - massLambda0| < v0Sel.compMassRejection)
      ∧ ¬(v0.posTrackExtra.itsNCls < v0Sel.minITSclusters)
      ∧ ¬(v0.negTrackExtra.itsNCls < v0Sel.minITSclusters)
      ∧ ¬(v0Sel.rejectPosITSafterburner ∧ v0.posTrackExtra.itsChi2PerNcl < 0)
      ∧ ¬(v0Sel.rejectNegITSafterburner ∧ v0.negTrackExtra.itsChi2PerNcl < 0)
      ∧ ¬(v0.posTrackExtra.tpcCrossedRows < v0Sel.minTPCrows)
      ∧ ¬(v0.negTrackExtra.tpcCrossedRows < v0Sel.minTPCrows)
      ∧ ¬(|v0.posTrackExtra.tpcNSigmaPi| > v0Sel.tpcPidNsigmaCut)
      ∧ ¬(|v0.negTrackExtra.tpcNSigmaPi| > v0Sel.tpcPidNsigmaCut)
      ∧ ¬(|v0.posTOFDeltaTK0Pi| > v0Sel.maxDeltaTimePion)
      ∧ ¬(|v0.negTOFDeltaTK0Pi| > v0Sel.maxDeltaTimePion)
      ∧ ¬(|v0.tofNSigmaK0PiPlus| > v0Sel.tofPidNsigmaCutK0Pi)
      ∧ ¬(|v0.tofNSigmaK0PiMinus| > v0Sel.tofPidNsigmaCutK0Pi)
      ∧ ¬(v0Sel.requirePosITSonly ∧ v0.posTrackExtra.tpcCrossedRows > 0)
      ∧ ¬(v0Sel.requireNegITSonly ∧ v0.negTrackExtra.tpcCrossedRows > 0)
      ∧ ¬(v0Sel.skipTPConly ∧ v0.posTrackExtra.detectorMap = trackDetectorMapTPC)
      ∧ ¬(v0Sel.skipTPConly ∧ v0.negTrackExtra.detectorMap = trackDetectorMapTPC)
      ∧ ¬(v0.distovertotmom * massK0Short > v0Sel.lifetimeCut)
      ∧ ¬(v0Sel.armPodCut > 1/10000 ∧ v0.qtarm * v0Sel.armPodCut < |v0.alpha|)) := by
  simp only [isV0Selected, Bool.false_eq_true, if_false, ite_reject, and_true]

/-- The photon-like branch of `isV0Selected` passes iff no rejection
condition fires, listed in source order. -/
theorem isV0Selected_photon_iff (v0Sel : V0SelectionConfig) (photonSel : PhotonSelectionConfig) (v0 : V0Cand) :
    isV0Selected v0Sel photonSel v0 true = true ↔
      (¬(v0.z > photonSel.photonZMax)
      ∧ ¬(|v0.negativeeta| > photonSel.daughterEtaCut ∨ |v0.positiveeta| > photonSel.daughterEtaCut)
      ∧ ¬(photonSel.v0TypeSelection > -1 ∧ v0.v0Type ≠ photonSel.v0TypeSelection)
      ∧ ¬(v0.v0radius < photonSel.v0radius)
      ∧ ¬(v0.v0radius > photonSel.v0radiusMax)
      ∧ ¬(|v0.dcapostopv| < photonSel.dcapostopv)
      ∧ ¬(|v0.dcanegtopv| > photonSel.dcanegtopv)
      ∧ ¬(v0.v0cosPA < photonSel.v0cospa)
      ∧ ¬(v0.dcaV0daughters > photonSel.dcav0dau)
      ∧ ¬(v0.dcav0topv < photonSel.dcav0topv)
      ∧ ¬(v0.mGamma > photonSel.photonMassMax)
      ∧ ¬(v0.posTrackExtra.itsNCls < photonSel.minITSclusters)
      ∧ ¬(v0.negTrackExtra.itsNCls < photonSel.minITSclusters)
      ∧ ¬(photonSel.rejectPosITSafterburner ∧ v0.posTrackExtra.itsChi2PerNcl < 0)
      ∧ ¬(photonSel.rejectNegITSafterburner ∧ v0.negTrackExtra.itsChi2PerNcl < 0)
      ∧ ¬(v0.posTrackExtra.tpcCrossedRows < photonSel.minTPCrows)
      ∧ ¬(v0.negTrackExtra.tpcCrossedRows < photonSel.minTPCrows)
      ∧ ¬(|v0.posTrackExtra.tpcNSigmaEl| > photonSel.tpcPidNsigmaCut)
      ∧ ¬(|v0.negTrackExtra.tpcNSigmaEl| > photonSel.tpcPidNsigmaCut)
      ∧ ¬(photonSel.requirePosITSonly ∧ v0.posTrackExtra.tpcCrossedRows > 0)
      ∧ ¬(photonSel.requireNegITSonly ∧ v0.negTrackExtra.tpcCrossedRows > 0)
      ∧ ¬(photonSel.skipTPConly ∧ v0.posTrackExtra.detectorMap = trackDetectorMapTPC)
      ∧ ¬(photonSel.skipTPConly ∧ v0.negTrackExtra.detectorMap = trackDetectorMapTPC)
      ∧ ¬(photonSel.armPodCut > 1/10000 ∧ v0.qtarm * photonSel.armPodCut < |v0.alpha|)) := by
  simp only [isV0Selected, if_true, ite_reject, and_true]

/-- The K0-short-like branch of `isV0SelectedFP` passes iff no rejection
condition fires, listed in source order. -/
theorem isV0SelectedFP_k0_iff (v0Sel : V0SelectionConfig) (photonSel : PhotonSelectionConfig) (v0 : V0CandFP) :
    isV0SelectedFP v0Sel photonSel v0 false = true ↔
      (¬(fpGtQ (fpAbs v0.negativeeta) photonSel.daughterEtaCut = true ∨ fpGtQ (fpAbs v0.positiveeta) photonSel.daughterEtaCut = true)
      ∧ ¬(photonSel.v0TypeSelection > -1 ∧ v0.v0Type ≠ photonSel.v0TypeSelection)
      ∧ ¬(fpLtQ v0.v0radius v0Sel.v0radius = true)
      ∧ ¬(fpGtQ v0.v0radius v0Sel.v0radiusMax = true)
      ∧ ¬(fpLtQ (fpAbs v0.dcapostopv) v0Sel.dcapostopv = true)
      ∧ ¬(fpGtQ (fpAbs v0.dcanegtopv) v0Sel.dcanegtopv = true)
      ∧ ¬(fpLtQ v0.v0cosPA v0Sel.v0cospa = true)
      ∧ ¬(fpGtQ v0.dcaV0daughters v0Sel.dcav0dau = true)
      ∧ ¬(fpLtQ v0.dcav0topv v0Sel.dcav0topv = true)
      ∧ ¬(fpGtQ (fpAbs (fpSubQ v0.mK0Short massK0Short)) v0Sel.v0MassWindow = true)
      ∧ ¬(fpLtQ (fpAbs (fpSubQ v0.mLambda massLambda0)) v0Sel.compMassRejection = true)
      ∧ ¬(v0.posTrackExtra.itsNCls < v0Sel.minITSclusters)
      ∧ ¬(v0.negTrackExtra.itsNCls < v0Sel.minITSclusters)
      ∧ ¬(v0Sel.rejectPosITSafterburner ∧ fpLtQ v0.posTrackExtra.itsChi2PerNcl 0 = true)
      ∧ ¬(v0Sel.rejectNegITSafterburner ∧ fpLtQ v0.negTrackExtra.itsChi2PerNcl 0 = true)
      ∧ ¬(v0.posTrackExtra.tpcCrossedRows < v0Sel.minTPCrows)
      ∧ ¬(v0.negTrackExtra.tpcCrossedRows < v0Sel.minTPCrows)
      ∧ ¬(fpGtQ (fpAbs v0.posTrackExtra.tpcNSigmaPi) v0Sel.tpcPidNsigmaCut = true)
      ∧ ¬(fpGtQ (fpAbs v0.negTrackExtra.tpcNSigmaPi) v0Sel.tpcPidNsigmaCut = true)
      ∧ ¬(fpGtQ (fpAbs v0.posTOFDeltaTK0Pi) v0Sel.maxDeltaTimePion = true)
      ∧ ¬(fpGtQ (fpAbs v0.negTOFDeltaTK0Pi) v0Sel.maxDeltaTimePion = true)
      ∧ ¬(fpGtQ (fpAbs v0.tofNSigmaK0PiPlus) v0Sel.tofPidNsigmaCutK0Pi = true)
      ∧ ¬(fpGtQ (fpAbs v0.tofNSigmaK0PiMinus) v0Sel.tofPidNsigmaCutK0Pi = true)
      ∧ ¬(v0Sel.requirePosITSonly ∧ v0.posTrackExtra.tpcCrossedRows > 0)
      ∧ ¬(v0Sel.requireNegITSonly ∧ v0.negTrackExtra.tpcCrossedRows > 0)
      ∧ ¬(v0Sel.skipTPConly ∧ v0.posTrackExtra.detectorMap = trackDetectorMapTPC)
      ∧ ¬(v0Sel.skipTPConly ∧ v0.negTrackExtra.detectorMap = trackDetectorMapTPC)
      ∧ ¬(fpGtQ (fpMulQ v0.distovertotmom massK0Short) v0Sel.lifetimeCut = true)
      ∧ ¬(v0Sel.armPodCut > 1/10000 ∧ fpLt (fpMulQ v0.qtarm v0Sel.armPodCut) (fpAbs v0.alpha) = true)) := by
  simp only [isV0SelectedFP, Bool.false_eq_true, if_false, ite_reject, and_true]

/-- The photon-like branch of `isV0SelectedFP` passes iff no rejection
condition fires, listed in source order. -/
theorem isV0SelectedFP_photon_iff (v0Sel : V0SelectionConfig) (photonSel : PhotonSelectionConfig) (v0 : V0CandFP) :
    isV0SelectedFP v0Sel photonSel v0 true = true ↔
      (¬(fpGtQ v0.z photonSel.photonZMax = true)
      ∧ ¬(fpGtQ (fpAbs v0.negativeeta) photonSel.daughterEtaCut = true ∨ fpGtQ (fpAbs v0.positiveeta) photonSel.daughterEtaCut = true)
      ∧ ¬(photonSel.v0TypeSelection > -1 ∧ v0.v0Type ≠ photonSel.v0TypeSelection)
      ∧ ¬(fpLtQ v0.v0radius photonSel.v0radius = true)
      ∧ ¬(fpGtQ v0.v0radius photonSel.v0radiusMax = true)
      ∧ ¬(fpLtQ (fpAbs v0.dcapostopv) photonSel.dcapostopv = true)
      ∧ ¬(fpGtQ (fpAbs v0.dcanegtopv) photonSel.dcanegtopv = true)
      ∧ ¬(fpLtQ v0.v0cosPA photonSel.v0cospa = true)
      ∧ ¬(fpGtQ v0.dcaV0daughters photonSel.dcav0dau = true)
      ∧ ¬(fpLtQ v0.dcav0topv photonSel.dcav0topv = true)
      ∧ ¬(fpGtQ v0.mGamma photonSel.photonMassMax = true)
      ∧ ¬(v0.posTrackExtra.itsNCls < photonSel.minITSclusters)
      ∧ ¬(v0.negTrackExtra.itsNCls < photonSel.minITSclusters)
      ∧ ¬(photonSel.rejectPosITSafterburner ∧ fpLtQ v0.posTrackExtra.itsChi2PerNcl 0 = true)
      ∧ ¬(photonSel.rejectNegITSafterburner ∧ fpLtQ v0.negTrackExtra.itsChi2PerNcl 0 = true)
      ∧ ¬(v0.posTrackExtra.tpcCrossedRows < photonSel.minTPCrows)
      ∧ ¬(v0.negTrackExtra.tpcCrossedRows < photonSel.minTPCrows)
      ∧ ¬(fpGtQ (fpAbs v0.posTrackExtra.tpcNSigmaEl) photonSel.tpcPidNsigmaCut = true)
      ∧ ¬(fpGtQ (fpAbs v0.negTrackExtra.tpcNSigmaEl) photonSel.tpcPidNsigmaCut = true)
      ∧ ¬(photonSel.requirePosITSonly ∧ v0.posTrackExtra.tpcCrossedRows > 0)
      ∧ ¬(photonSel.requireNegITSonly ∧ v0.negTrackExtra.tpcCrossedRows > 0)
      ∧ ¬(photonSel.skipTPConly ∧ v0.posTrackExtra.detectorMap = trackDetectorMapTPC)
      ∧ ¬(photonSel.skipTPConly ∧ v0.negTrackExtra.detectorMap = trackDetectorMapTPC)
      ∧ ¬(photonSel.armPodCut > 1/10000 ∧ fpLt (fpMulQ v0.qtarm photonSel.armPodCut) (fpAbs v0.alpha) = true)) := by
  simp only [isV0SelectedFP, if_true, ite_reject, and_true]

/-- `checkTrackIndices` passes iff all four daughter-track identifier
equality combinations fail. -/
theorem checkTrackIndices_iff (k0short gamma : V0Cand) :
    checkTrackIndices k0short gamma = true ↔
      (k0short.posTrackExtraId ≠ gamma.posTrackExtraId
      ∧ k0short.posTrackExtraId ≠ gamma.negTrackExtraId
      ∧ k0short.negTrackExtraId ≠ gamma.posTrackExtraId
      ∧ k0short.negTrackExtraId ≠ gamma.negTrackExtraId) := by
  unfold checkTrackIndices
  split_ifs with h1 h2 <;> simp_all [not_or] <;> tauto

/-- Membership in the pair list built by `buildV0V0Pairs`: exactly the
in-range index pairs passing both masks, the same-candidate test and the
daughter-disjointness test. -/
theorem buildV0V0Pairs_mem (fullV0s : List V0Cand)
    (selK0ShortIndices selGammaIndices : List Bool) (p : ℕ × ℕ) :
    p ∈ buildV0V0Pairs fullV0s selK0ShortIndices selGammaIndices ↔
      (p.1 < fullV0s.length ∧ p.2 < fullV0s.length
      ∧ selK0ShortIndices.getD p.1 false = true
      ∧ selGammaIndices.getD p.2 false = true
      ∧ p.1 ≠ p.2
      ∧ checkTrackIndices (fullV0s.getD p.1 defaultV0) (fullV0s.getD p.2 defaultV0) = true) := by
  unfold buildV0V0Pairs
  rw [List.mem_flatMap]
  constructor
  · rintro ⟨i, hi, hmem⟩
    by_cases hk : selK0ShortIndices.getD i false = true
    · rw [if_pos hk, List.mem_filterMap] at hmem
      obtain ⟨j, hj, heq⟩ := hmem
      by_cases hg : selGammaIndices.getD j false = true
      · rw [if_pos hg] at heq
        by_cases hij : i = j
        · rw [if_pos hij] at heq
          exact absurd heq (by simp)
        · rw [if_neg hij] at heq
          by_cases hc : checkTrackIndices (fullV0s.getD i defaultV0) (fullV0s.getD j defaultV0) = true
          · rw [if_pos hc] at heq
            obtain ⟨rfl, rfl⟩ := Prod.mk.inj (Option.some.inj heq)
            exact ⟨List.mem_range.1 hi, List.mem_range.1 hj, hk, hg, hij, hc⟩
          · rw [if_neg hc] at heq
            exact absurd heq (by simp)
      · rw [if_neg hg] at heq
        exact absurd heq (by simp)
    · rw [if_neg hk] at hmem
      exact absurd hmem (by simp)
  · rintro ⟨h1, h2, h3, h4, h5, h6⟩
    refine ⟨p.1, List.mem_range.2 h1, ?_⟩
    rw [if_pos h3, List.mem_filterMap]
    exact ⟨p.2, List.mem_range.2 h2, by rw [if_pos h4, if_neg h5, if_pos h6]⟩

/-- C2: every pair emitted by `buildV0V0Pairs` joins two distinct
candidates with pairwise-disjoint daughter-track references (all four
identifier equalities fail), the primary passing the K0-short mask and
the secondary passing the photon mask — for any batch, including ones
where distinct candidates share daughter references. -/
theorem claim_C2_pair_invariants (fullV0s : List V0Cand)
    (selK0ShortIndices selGammaIndices : List Bool) (i j : ℕ)
    (h : (i, j) ∈ buildV0V0Pairs fullV0s selK0ShortIndices selGammaIndices) :
    i ≠ j
    ∧ selK0ShortIndices.getD i false = true
    ∧ selGammaIndices.getD j false = true
    ∧ (fullV0s.getD i defaultV0).posTrackExtraId ≠ (fullV0s.getD j defaultV0).posTrackExtraId
    ∧ (fullV0s.getD i defaultV0).posTrackExtraId ≠ (fullV0s.getD j defaultV0).negTrackExtraId
    ∧ (fullV0s.getD i defaultV0).negTrackExtraId ≠ (fullV0s.getD j defaultV0).posTrackExtraId
    ∧ (fullV0s.getD i defaultV0).negTrackExtraId ≠ (fullV0s.getD j defaultV0).negTrackExtraId := by
  have hm := (buildV0V0Pairs_mem fullV0s selK0ShortIndices selGammaIndices (i, j)).1 h
  have hc := (checkTrackIndices_iff _ _).1 hm.2.2.2.2.2
  exact ⟨hm.2.2.2.2.1, hm.2.2.1, hm.2.2.2.1, hc.1, hc.2.1, hc.2.2.1, hc.2.2.2⟩

/-- Batch row with given daughter-track references and zeroed scalars,
for concrete pairing scenarios. -/
def demoCand (posId negId : ℤ) : V0Cand :=
  { defaultV0 with posTrackExtraId := posId, negTrackExtraId := negId }

theorem claim_C2_pair_invariants_witness :
    ((0, 1) ∈ buildV0V0Pairs [demoCand 1 2, demoCand 3 4] [true, false] [false, true])
    ∧ (0 ≠ 1
      ∧ [true, false].getD 0 false = true
      ∧ [false, true].getD 1 false = true
      ∧ (([demoCand 1 2, demoCand 3 4].getD 0 defaultV0).posTrackExtraId
          ≠ ([demoCand 1 2, demoCand 3 4].getD 1 defaultV0).posTrackExtraId)
      ∧ (([demoCand 1 2, demoCand 3 4].getD 0 defaultV0).posTrackExtraId
          ≠ ([demoCand 1 2, demoCand 3 4].getD 1 defaultV0).negTrackExtraId)
      ∧ (([demoCand 1 2, demoCand 3 4].getD 0 defaultV0).negTrackExtraId
          ≠ ([demoCand 1 2, demoCand 3 4].getD 1 defaultV0).posTrackExtraId)
      ∧ (([demoCand 1 2, demoCand 3 4].getD 0 defaultV0).negTrackExtraId
          ≠ ([demoCand 1 2, demoCand 3 4].getD 1 defaultV0).negTrackExtraId)) :=
  ⟨by decide, claim_C2_pair_invariants [demoCand 1 2, demoCand 3 4] [true, false] [false, true] 0 1 (by decide)⟩

/-- A flat-mapped pair list is duplicate-free when the outer indices are
duplicate-free, each block is duplicate-free, and every pair records its
outer index in its first component. -/
theorem nodup_flatMap_of_fst (l : List ℕ) (F : ℕ → List (ℕ × ℕ))
    (hl : l.Nodup) (hF : ∀ i, (F i).Nodup) (hfst : ∀ i p, p ∈ F i → p.1 = i) :
    (l.flatMap F).Nodup := by
  induction l with
  | nil => simp
  | cons a t ih =>
    rw [List.flatMap_cons, List.nodup_append]
    refine ⟨hF a, ih (List.nodup_cons.1 hl).2, ?_⟩
    intro p hpa hpt
    rw [List.mem_flatMap] at hpt
    obtain ⟨b, hb, hpb⟩ := hpt
    have ha : p.1 = a := hfst a p hpa
    have hbb : p.1 = b := hfst b p hpb
    exact (List.nodup_cons.1 hl).1 (ha ▸ hbb ▸ hb)

/-- `buildV0V0Pairs` never emits the same (primary, secondary) pair twice. -/
theorem buildV0V0Pairs_nodup (fullV0s : List V0Cand)
    (selK0ShortIndices selGammaIndices : List Bool) :
    (buildV0V0Pairs fullV0s selK0ShortIndices selGammaIndices).Nodup := by
  unfold buildV0V0Pairs
  apply nodup_flatMap_of_fst _ _ (List.nodup_range _)
  · intro i
    split_ifs with hk
    · apply List.Nodup.filterMap ?_ (List.nodup_range _)
      intro a a' b hba hba'
      rw [Option.mem_def] at hba hba'
      have h2 : ∀ (j : ℕ) (p : ℕ × ℕ),
          (if selGammaIndices.getD j false = true then
            if i = j then none
            else if checkTrackIndices (fullV0s.getD i defaultV0) (fullV0s.getD j defaultV0) = true then
              some (i, j)
            else none
          else none) = some p → p = (i, j) := by
        intro j p hp
        split_ifs at hp <;> first
          | exact Option.noConfusion hp
          | exact (Option.some.inj hp).symm
      have e1 := h2 a b hba
      have e2 := h2 a' b hba'
      rw [e1] at e2
      exact (Prod.mk.inj e2).2
    · exact List.nodup_nil
  · intro i p hp
    split_ifs at hp with hk
    · rw [List.mem_filterMap] at hp
      obtain ⟨j, hj, heq⟩ := hp
      split_ifs at heq <;> first
        | exact Option.noConfusion heq
        | exact congrArg Prod.fst (Option.some.inj heq).symm
    · exact absurd hp (by simp)

/-- C7: on a batch where no two distinct candidates share a daughter
track, `buildV0V0Pairs` emits exactly |primary| · |secondary| − overlaps
pairs, without duplicates, and a pair is emitted iff it is a valid
in-range masked combination with distinct members — so the reverse-order
copy of an emitted pair appears only if it is itself such a combination. -/
theorem claim_C7_pair_count (fullV0s : List V0Cand)
    (selK0ShortIndices selGammaIndices : List Bool)
    (H : ∀ i j, i < fullV0s.length → j < fullV0s.length → i ≠ j →
      checkTrackIndices (fullV0s.getD i defaultV0) (fullV0s.getD j defaultV0) = true) :
    (buildV0V0Pairs fullV0s selK0ShortIndices selGammaIndices).length
        = ((Finset.range fullV0s.length).filter
              fun i => selK0ShortIndices.getD i false = true).card
          * ((Finset.range fullV0s.length).filter
              fun j => selGammaIndices.getD j false = true).card
          - ((Finset.range fullV0s.length).filter
              fun i => selK0ShortIndices.getD i false = true
                ∧ selGammaIndices.getD i false = true).card
    ∧ (buildV0V0Pairs fullV0s selK0ShortIndices selGammaIndices).Nodup
    ∧ ∀ i j, ((i, j) ∈ buildV0V0Pairs fullV0s selK0ShortIndices selGammaIndices ↔
        i < fullV0s.length ∧ j < fullV0s.length
        ∧ selK0ShortIndices.getD i false = true
        ∧ selGammaIndices.getD j false = true ∧ i ≠ j) := by
  have hnd := buildV0V0Pairs_nodup fullV0s selK0ShortIndices selGammaIndices
  have hmem : ∀ i j : ℕ,
      (i, j) ∈ buildV0V0Pairs fullV0s selK0ShortIndices selGammaIndices ↔
        i < fullV0s.length ∧ j < fullV0s.length
        ∧ selK0ShortIndices.getD i false = true
        ∧ selGammaIndices.getD j false = true ∧ i ≠ j := by
    intro i j
    rw [buildV0V0Pairs_mem]
    constructor
    · rintro ⟨h1, h2, h3, h4, h5, -⟩
      exact ⟨h1, h2, h3, h4, h5⟩
    · rintro ⟨h1, h2, h3, h4, h5⟩
      exact ⟨h1, h2, h3, h4, h5, H i j h1 h2 h5⟩
  refine ⟨?_, hnd, hmem⟩
  have hmem' : ∀ p : ℕ × ℕ,
      p ∈ buildV0V0Pairs fullV0s selK0ShortIndices selGammaIndices ↔
        p.1 < fullV0s.length ∧ p.2 < fullV0s.length
        ∧ selK0ShortIndices.getD p.1 false = true
        ∧ selGammaIndices.getD p.2 false = true ∧ p.1 ≠ p.2 := by
    intro p
    rw [buildV0V0Pairs_mem]
    constructor
    · rintro ⟨h1, h2, h3, h4, h5, -⟩
      exact ⟨h1, h2, h3, h4, h5⟩
    · rintro ⟨h1, h2, h3, h4, h5⟩
      exact ⟨h1, h2, h3, h4, h5, H p.1 p.2 h1 h2 h5⟩
  have htf : (buildV0V0Pairs fullV0s selK0ShortIndices selGammaIndices).toFinset
      = (((Finset.range fullV0s.length).filter
            fun i => selK0ShortIndices.getD i false = true)
          ×ˢ ((Finset.range fullV0s.length).filter
            fun j => selGammaIndices.getD j false = true))
        \ ((((Finset.range fullV0s.length).filter
            fun i => selK0ShortIndices.getD i false = true)
          ×ˢ ((Finset.range fullV0s.length).filter
            fun j => selGammaIndices.getD j false = true)).filter
            fun p => p.1 = p.2) := by
    ext p
    rw [List.mem_toFinset, hmem']
    simp only [Finset.mem_sdiff, Finset.mem_product, Finset.mem_filter, Finset.mem_range]
    tauto
  have hdiag : ((((Finset.range fullV0s.length).filter
            fun i => selK0ShortIndices.getD i false = true)
          ×ˢ ((Finset.range fullV0s.length).filter
            fun j => selGammaIndices.getD j false = true)).filter
            fun p => p.1 = p.2)
      = ((Finset.range fullV0s.length).filter
            fun i => selK0ShortIndices.getD i false = true
              ∧ selGammaIndices.getD i false = true).image fun i => (i, i) := by
    ext p
    simp only [Finset.mem_filter, Finset.mem_product, Finset.mem_image, Finset.mem_range]
    constructor
    · rintro ⟨⟨⟨h1, h3⟩, h2, h4⟩, he⟩
      refine ⟨p.1, ⟨h1, h3, by rw [he]; exact h4⟩, ?_⟩
      rw [Prod.ext_iff]
      exact ⟨rfl, he⟩
    · rintro ⟨i, ⟨hi1, hi2, hi3⟩, rfl⟩
      exact ⟨⟨⟨hi1, hi2⟩, hi1, hi3⟩, rfl⟩
  have hinj : Function.Injective fun i : ℕ => ((i, i) : ℕ × ℕ) := by
    intro a b e
    exact congrArg Prod.fst e
  rw [← List.toFinset_card_of_nodup hnd, htf,
    Finset.card_sdiff (Finset.filter_subset _ _), Finset.card_product, hdiag,
    Finset.card_image_of_injective _ hinj]

theorem claim_C7_pair_count_witness :
    (buildV0V0Pairs [demoCand 1 2, demoCand 3 4] [true, true] [true, true]).length
      = 2 * 2 - 2 := by
  have h := (claim_C7_pair_count [demoCand 1 2, demoCand 3 4] [true, true] [true, true]
    (by intro i j hi hj hne
        have hi2 : i < 2 := by simpa using hi
        have hj2 : j < 2 := by simpa using hj
        interval_cases i <;> interval_cases j <;> first
          | exact absurd rfl hne
          | decide)).1
  rw [h]
  decide

/-- C8: in both categories the per-daughter DCA-to-origin cuts point in
opposite directions — below-threshold positive-daughter |DCA| rejects
(lower bound) while above-threshold negative-daughter |DCA| rejects
(upper bound) — and a concrete candidate passing every cut becomes
rejected through the negative-daughter cut once both daughters' DCA
magnitudes lie above their thresholds. -/
theorem claim_C8_dca_cut_directions :
    (∀ (v0Sel : V0SelectionConfig) (photonSel : PhotonSelectionConfig) (v0 : V0Cand),
        |v0.dcapostopv| < v0Sel.dcapostopv → isV0Selected v0Sel photonSel v0 false = false)
    ∧ (∀ (v0Sel : V0SelectionConfig) (photonSel : PhotonSelectionConfig) (v0 : V0Cand),
        |v0.dcanegtopv| > v0Sel.dcanegtopv → isV0Selected v0Sel photonSel v0 false = false)
    ∧ (∀ (v0Sel : V0SelectionConfig) (photonSel : PhotonSelectionConfig) (v0 : V0Cand),
        |v0.dcapostopv| < photonSel.dcapostopv → isV0Selected v0Sel photonSel v0 true = false)
    ∧ (∀ (v0Sel : V0SelectionConfig) (photonSel : PhotonSelectionConfig) (v0 : V0Cand),
        |v0.dcanegtopv| > photonSel.dcanegtopv → isV0Selected v0Sel photonSel v0 true = false)
    ∧ isV0Selected testV0Sel testPhotonSel testCand false = true
    ∧ |({testCand with dcanegtopv := 1} : V0Cand).dcapostopv| > testV0Sel.dcapostopv
    ∧ |({testCand with dcanegtopv := 1} : V0Cand).dcanegtopv| > testV0Sel.dcanegtopv
    ∧ isV0Selected testV0Sel testPhotonSel {testCand with dcanegtopv := 1} false = false := by
  refine ⟨?_, ?_, ?_, ?_, ?_, ?_, ?_, ?_⟩
  · intro v0Sel photonSel v0 h
    cases hx : isV0Selected v0Sel photonSel v0 false with
    | false => rfl
    | true =>
      rw [isV0Selected_k0_iff] at hx
      exact absurd h hx.2.2.2.2.1
  · intro v0Sel photonSel v0 h
    cases hx : isV0Selected v0Sel photonSel v0 false with
    | false => rfl
    | true =>
      rw [isV0Selected_k0_iff] at hx
      exact absurd h hx.2.2.2.2.2.1
  · intro v0Sel photonSel v0 h
    cases hx : isV0Selected v0Sel photonSel v0 true with
    | false => rfl
    | true =>
      rw [isV0Selected_photon_iff] at hx
      exact absurd h hx.2.2.2.2.2.1
  · intro v0Sel photonSel v0 h
    cases hx : isV0Selected v0Sel photonSel v0 true with
    | false => rfl
    | true =>
      rw [isV0Selected_photon_iff] at hx
      exact absurd h hx.2.2.2.2.2.2.1
  · rw [isV0Selected_k0_iff]
    norm_num [testV0Sel, testPhotonSel, testCand, massK0Short, massLambda0,
      trackDetectorMapTPC, abs_le, le_abs]
  · norm_num [testCand, testV0Sel]
  · norm_num [testCand, testV0Sel]
  · rw [Bool.eq_false_iff]
    intro hx
    rw [isV0Selected_k0_iff] at hx
    refine hx.2.2.2.2.2.1 ?_
    norm_num [testCand, testV0Sel]

theorem claim_C8_dca_cut_directions_witness :
    |({testCand with dcapostopv := 0} : V0Cand).dcapostopv| < testV0Sel.dcapostopv
    ∧ isV0Selected testV0Sel testPhotonSel {testCand with dcapostopv := 0} false = false :=
  ⟨by norm_num [testCand, testV0Sel],
   claim_C8_dca_cut_directions.1 testV0Sel testPhotonSel _ (by norm_num [testCand, testV0Sel])⟩

/-- C9: the photon-like classification rejects every candidate whose
signed conversion-point z exceeds `photonZMax`; the cut is on the signed
value, so below the threshold the result never depends on z (arbitrarily
negative z included, which thus is never rejected by this cut); the
K0-short-like classification applies no z cut at all. -/
theorem claim_C9_photon_z_cut :
    (∀ (v0Sel : V0SelectionConfig) (photonSel : PhotonSelectionConfig) (v0 : V0Cand),
        v0.z > photonSel.photonZMax → isV0Selected v0Sel photonSel v0 true = false)
    ∧ (∀ (v0Sel : V0SelectionConfig) (photonSel : PhotonSelectionConfig) (v0 : V0Cand)
        (z1 z2 : ℚ), z1 ≤ photonSel.photonZMax → z2 ≤ photonSel.photonZMax →
        isV0Selected v0Sel photonSel {v0 with z := z1} true
          = isV0Selected v0Sel photonSel {v0 with z := z2} true)
    ∧ (∀ (v0Sel : V0SelectionConfig) (photonSel : PhotonSelectionConfig) (v0 : V0Cand)
        (z' : ℚ), isV0Selected v0Sel photonSel {v0 with z := z'} false
          = isV0Selected v0Sel photonSel v0 false)
    ∧ isV0Selected testV0Sel testPhotonSel {testCand with z := -1000000000} true = true := by
  refine ⟨?_, ?_, ?_, ?_⟩
  · intro v0Sel photonSel v0 h
    cases hx : isV0Selected v0Sel photonSel v0 true with
    | false => rfl
    | true =>
      rw [isV0Selected_photon_iff] at hx
      exact absurd h hx.1
  · intro v0Sel photonSel v0 z1 z2 h1 h2
    rw [Bool.eq_iff_iff, isV0Selected_photon_iff, isV0Selected_photon_iff]
    constructor
    · rintro ⟨-, h⟩
      exact ⟨not_lt.2 h2, h⟩
    · rintro ⟨-, h⟩
      exact ⟨not_lt.2 h1, h⟩
  · intro v0Sel photonSel v0 z'
    rfl
  · rw [isV0Selected_photon_iff]
    norm_num [testV0Sel, testPhotonSel, testCand, trackDetectorMapTPC, abs_le, le_abs]

theorem claim_C9_photon_z_cut_witness :
    ({testCand with z := 300} : V0Cand).z > testPhotonSel.photonZMax
    ∧ isV0Selected testV0Sel testPhotonSel {testCand with z := 300} true = false :=
  ⟨by norm_num [testCand, testPhotonSel],
   claim_C9_photon_z_cut.1 testV0Sel testPhotonSel _ (by norm_num [testCand, testPhotonSel])⟩

/-- C10: with `useGammaScores` on and `calculateGammaScores` off, the
photon-like decision is exactly `antiLambdaBDTScore > thresholdGamma` —
the precomputed anti-Lambda BDT column — independent of every cut-based
candidate field. -/
theorem claim_C10_gamma_score_mode :
    ∀ (ml : MlConfigurations) (v0Sel : V0SelectionConfig)
      (photonSel : PhotonSelectionConfig) (v0 : V0Cand)
      (k0ShortModelScore gammaModelScore : ℚ),
      ml.useGammaScores = true → ml.calculateGammaScores = false →
      ((analyseV0Candidate ml v0Sel photonSel v0 k0ShortModelScore gammaModelScore).2
          = decide (v0.antiLambdaBDTScore > ml.thresholdGamma)
      ∧ ∀ v0' : V0Cand, v0'.antiLambdaBDTScore = v0.antiLambdaBDTScore →
          (analyseV0Candidate ml v0Sel photonSel v0' k0ShortModelScore gammaModelScore).2
            = (analyseV0Candidate ml v0Sel photonSel v0 k0ShortModelScore gammaModelScore).2) := by
  intro ml v0Sel photonSel v0 s1 s2 hu hc
  have key : ∀ w : V0Cand,
      (analyseV0Candidate ml v0Sel photonSel w s1 s2).2
        = decide (w.antiLambdaBDTScore > ml.thresholdGamma) := by
    intro w
    simp [analyseV0Candidate, hu, hc]
  refine ⟨key v0, ?_⟩
  intro v0' h
  rw [key v0', key v0, h]

/-- ML flags enabling score-based photon selection from the derived-data
column. -/
def testMl : MlConfigurations :=
  ⟨false, true, false, false, 1/2, 1/4⟩

theorem claim_C10_gamma_score_mode_witness :
    testMl.useGammaScores = true ∧ testMl.calculateGammaScores = false
    ∧ (analyseV0Candidate testMl testV0Sel testPhotonSel testCand 0 0).2
        = decide (testCand.antiLambdaBDTScore > testMl.thresholdGamma) :=
  ⟨rfl, rfl, (claim_C10_gamma_score_mode testMl testV0Sel testPhotonSel testCand 0 0 rfl rfl).1⟩

/-- C5 (amended): in the real-data instantiation, when the
MC-association flag is also disabled, a pair is reported onward only if
its |rapidity| lies within the configured window. -/
theorem claim_C5_rapidity_gate (rapidityCut rapidity : ℚ)
    (h : analyseV0PairCandidateReports false rapidityCut rapidity = true) :
    |rapidity| ≤ rapidityCut := by
  by_contra hc
  unfold analyseV0PairCandidateReports at h
  rw [if_pos ⟨rfl, not_le.1 hc⟩] at h
  exact Bool.false_ne_true h

/-- C5 counterexample: with MC-truth information absent but the
MC-association flag enabled (its default), a pair whose |rapidity|
exceeds the window is still reported. -/
theorem claim_C5_counterexample :
    analyseV0PairCandidateReports true (1/2) 10 = true ∧ |(10 : ℚ)| > 1/2 := by
  constructor
  · unfold analyseV0PairCandidateReports
    rw [if_neg]
    rintro ⟨h, -⟩
    exact Bool.noConfusion h
  · have h10 : |(10 : ℚ)| = 10 := abs_of_pos (by norm_num)
    rw [h10]
    norm_num

theorem claim_C5_rapidity_gate_witness :
    analyseV0PairCandidateReports false (1/2) (1/4) = true ∧ |(1/4 : ℚ)| ≤ 1/2 := by
  have habs : |(1/4 : ℚ)| = 1/4 := abs_of_pos (by norm_num)
  have h : analyseV0PairCandidateReports false (1/2) (1/4) = true := by
    unfold analyseV0PairCandidateReports
    rw [if_neg]
    rintro ⟨-, hgt⟩
    rw [habs] at hgt
    norm_num at hgt
  exact ⟨h, claim_C5_rapidity_gate _ _ h⟩

/-- C1: the K0-short-like acceptance cuts read the photon-like
configuration: a candidate inside the K0-short config's eta bound but
outside the photon config's is rejected by the K0-short classification,
and swapping the two configs' eta values (leaving the K0-short config's
unused value small) accepts it. -/
theorem claim_C1_k0_acceptance_reads_photon_config :
    isV0Selected testV0Sel {testPhotonSel with daughterEtaCut := 1/2}
        {testCand with negativeeta := 3/5} false = false
    ∧ |({testCand with negativeeta := 3/5} : V0Cand).negativeeta| ≤ testV0Sel.daughterEtaCut
    ∧ |({testCand with negativeeta := 3/5} : V0Cand).positiveeta| ≤ testV0Sel.daughterEtaCut
    ∧ isV0Selected {testV0Sel with daughterEtaCut := 1/2} testPhotonSel
        {testCand with negativeeta := 3/5} false = true := by
  refine ⟨?_, ?_, ?_, ?_⟩
  · rw [Bool.eq_false_iff]
    intro hx
    rw [isV0Selected_k0_iff] at hx
    exact hx.1 (Or.inl (by norm_num [testCand, testPhotonSel, lt_abs]))
  · norm_num [testCand, testV0Sel, abs_le]
  · norm_num [testCand, testV0Sel, abs_le]
  · rw [isV0Selected_k0_iff]
    norm_num [testV0Sel, testPhotonSel, testCand, massK0Short, massLambda0,
      trackDetectorMapTPC, abs_le, le_abs]

/-- C3 counterexample: a candidate whose K0-short-hypothesis mass sits
exactly at the edge of the mass window, and passes all other cuts, is
accepted — the claim says it is rejected. -/
theorem claim_C3_counterexample :
    |({testCand with mK0Short := 497611/1000000 + 1/125} : V0Cand).mK0Short - massK0Short|
        = testV0Sel.v0MassWindow
    ∧ isV0Selected testV0Sel testPhotonSel
        {testCand with mK0Short := 497611/1000000 + 1/125} false = true := by
  constructor
  · norm_num [testCand, testV0Sel, massK0Short]
  · rw [isV0Selected_k0_iff]
    norm_num [testV0Sel, testPhotonSel, testCand, massK0Short, massLambda0,
      trackDetectorMapTPC, abs_le, le_abs]

/-- C3 (amended): the mass-window comparison is inclusive at the
boundary — a candidate exactly at the edge is treated by the K0-short
classification exactly like the same candidate at the central mass, so
it is not rejected by the mass-window cut. -/
theorem claim_C3_mass_window_boundary (v0Sel : V0SelectionConfig)
    (photonSel : PhotonSelectionConfig) (v0 : V0Cand)
    (h0 : 0 ≤ v0Sel.v0MassWindow)
    (h : |v0.mK0Short - massK0Short| = v0Sel.v0MassWindow) :
    isV0Selected v0Sel photonSel v0 false
      = isV0Selected v0Sel photonSel {v0 with mK0Short := massK0Short} false := by
  rw [Bool.eq_iff_iff, isV0Selected_k0_iff, isV0Selected_k0_iff]
  constructor
  · rintro ⟨h1, h2, h3, h4, h5, h6, h7, h8, h9, -, hrest⟩
    refine ⟨h1, h2, h3, h4, h5, h6, h7, h8, h9, ?_, hrest⟩
    simp only [sub_self, abs_zero]
    exact not_lt.2 h0
  · rintro ⟨h1, h2, h3, h4, h5, h6, h7, h8, h9, -, hrest⟩
    refine ⟨h1, h2, h3, h4, h5, h6, h7, h8, h9, ?_, hrest⟩
    rw [h]
    exact lt_irrefl _

theorem claim_C3_mass_window_boundary_witness :
    (0 : ℚ) ≤ testV0Sel.v0MassWindow
    ∧ |({testCand with mK0Short := 497611/1000000 + 1/125} : V0Cand).mK0Short - massK0Short|
        = testV0Sel.v0MassWindow
    ∧ isV0Selected testV0Sel testPhotonSel
          {testCand with mK0Short := 497611/1000000 + 1/125} false
        = isV0Selected testV0Sel testPhotonSel
            {({testCand with mK0Short := 497611/1000000 + 1/125} : V0Cand) with
              mK0Short := massK0Short} false := by
  have h0 : (0 : ℚ) ≤ testV0Sel.v0MassWindow := by norm_num [testV0Sel]
  have h : |({testCand with mK0Short := 497611/1000000 + 1/125} : V0Cand).mK0Short - massK0Short|
      = testV0Sel.v0MassWindow := by
    norm_num [testCand, testV0Sel, massK0Short]
  exact ⟨h0, h, claim_C3_mass_window_boundary testV0Sel testPhotonSel _ h0 h⟩

/-- C4 counterexample: with slope 5, a candidate at exact Armenteros
equality `qt·k = |alpha|` passes (the claim says it fails the cut), and
with slope `1/20000 ∈ (0, 10⁻⁴]` a candidate violating `qt·k > |alpha|`
still passes because the cut is skipped (the claim says a positive slope
applies it). -/
theorem claim_C4_counterexample :
    (isV0Selected testV0Sel testPhotonSel {testCand with qtarm := 1/10, alpha := 1/2} false = true
      ∧ ({testCand with qtarm := 1/10, alpha := 1/2} : V0Cand).qtarm * testV0Sel.armPodCut
          = |({testCand with qtarm := 1/10, alpha := 1/2} : V0Cand).alpha|)
    ∧ (isV0Selected {testV0Sel with armPodCut := 1/20000} testPhotonSel
          {testCand with qtarm := 0, alpha := 1} false = true
      ∧ (0 : ℚ) < ({testV0Sel with armPodCut := 1/20000} : V0SelectionConfig).armPodCut
      ∧ ({testCand with qtarm := 0, alpha := 1} : V0Cand).qtarm
            * ({testV0Sel with armPodCut := 1/20000} : V0SelectionConfig).armPodCut
          < |({testCand with qtarm := 0, alpha := 1} : V0Cand).alpha|) := by
  refine ⟨⟨?_, ?_⟩, ?_, ?_, ?_⟩
  · rw [isV0Selected_k0_iff]
    norm_num [testV0Sel, testPhotonSel, testCand, massK0Short, massLambda0,
      trackDetectorMapTPC, abs_le, le_abs, lt_abs]
  · have habs : |(1/2 : ℚ)| = 1/2 := abs_of_pos (by norm_num)
    norm_num [testCand, testV0Sel, habs]
  · rw [isV0Selected_k0_iff]
    norm_num [testV0Sel, testPhotonSel, testCand, massK0Short, massLambda0,
      trackDetectorMapTPC, abs_le, le_abs, lt_abs]
  · norm_num [testV0Sel]
  · norm_num [testCand, testV0Sel]

/-- C4 (amended): the Armenteros-Podolanski cut is applied exactly when
the configured slope exceeds 10⁻⁴ and skipped otherwise; when applied, a
candidate passes it iff `qt·k ≥ |alpha|` (equality passes): in both
categories the selection equals the same selection with the cut disarmed
conjoined with the negation of the rejection condition. -/
theorem claim_C4_armenteros_semantics :
    ∀ (v0Sel : V0SelectionConfig) (photonSel : PhotonSelectionConfig) (v0 : V0Cand),
      (isV0Selected v0Sel photonSel v0 false
        = (isV0Selected v0Sel photonSel {v0 with qtarm := 0, alpha := 0} false
            && !decide (v0Sel.armPodCut > 1/10000 ∧ v0.qtarm * v0Sel.armPodCut < |v0.alpha|)))
      ∧ (isV0Selected v0Sel photonSel v0 true
        = (isV0Selected v0Sel photonSel {v0 with qtarm := 0, alpha := 0} true
            && !decide (photonSel.armPodCut > 1/10000 ∧ v0.qtarm * photonSel.armPodCut < |v0.alpha|))) := by
  intro v0Sel photonSel v0
  constructor
  · rw [Bool.eq_iff_iff, Bool.and_eq_true, Bool.not_eq_true', decide_eq_false_iff_not,
      isV0Selected_k0_iff, isV0Selected_k0_iff]
    constructor
    · rintro ⟨h1, h2, h3, h4, h5, h6, h7, h8, h9, h10, h11, h12, h13, h14, h15, h16, h17, h18, h19, h20, h21, h22, h23, h24, h25, h26, h27, h28, hAP⟩
      exact ⟨⟨h1, h2, h3, h4, h5, h6, h7, h8, h9, h10, h11, h12, h13, h14, h15, h16, h17, h18, h19, h20, h21, h22, h23, h24, h25, h26, h27, h28, by simp⟩, hAP⟩
    · rintro ⟨⟨h1, h2, h3, h4, h5, h6, h7, h8, h9, h10, h11, h12, h13, h14, h15, h16, h17, h18, h19, h20, h21, h22, h23, h24, h25, h26, h27, h28, -⟩, hAP⟩
      exact ⟨h1, h2, h3, h4, h5, h6, h7, h8, h9, h10, h11, h12, h13, h14, h15, h16, h17, h18, h19, h20, h21, h22, h23, h24, h25, h26, h27, h28, hAP⟩
  · rw [Bool.eq_iff_iff, Bool.and_eq_true, Bool.not_eq_true', decide_eq_false_iff_not,
      isV0Selected_photon_iff, isV0Selected_photon_iff]
    constructor
    · rintro ⟨h1, h2, h3, h4, h5, h6, h7, h8, h9, h10, h11, h12, h13, h14, h15, h16, h17, h18, h19, h20, h21, h22, h23, hAP⟩
      exact ⟨⟨h1, h2, h3, h4, h5, h6, h7, h8, h9, h10, h11, h12, h13, h14, h15, h16, h17, h18, h19, h20, h21, h22, h23, by simp⟩, hAP⟩
    · rintro ⟨⟨h1, h2, h3, h4, h5, h6, h7, h8, h9, h10, h11, h12, h13, h14, h15, h16, h17, h18, h19, h20, h21, h22, h23, -⟩, hAP⟩
      exact ⟨h1, h2, h3, h4, h5, h6, h7, h8, h9, h10, h11, h12, h13, h14, h15, h16, h17, h18, h19, h20, h21, h22, h23, hAP⟩

/-- C6 counterexample: a candidate whose pointing-angle cosine is NaN,
with every other field passing, is classified K0-short-like `true` — the
claim says NaN in a cut-relevant field forces `false`. -/
theorem claim_C6_counterexample :
    ({V0Cand.toFP testCand with v0cosPA := none} : V0CandFP).v0cosPA = none
    ∧ isV0SelectedFP testV0Sel testPhotonSel
        {V0Cand.toFP testCand with v0cosPA := none} false = true := by
  constructor
  · rfl
  · rw [isV0SelectedFP_k0_iff]
    norm_num [V0Cand.toFP, DauTrackExtra.toFP, testCand, testV0Sel, testPhotonSel,
      fpGtQ, fpLtQ, fpAbs, fpSubQ, fpMulQ, fpLt, massK0Short, massLambda0,
      trackDetectorMapTPC, abs_le, le_abs, lt_abs, decide_eq_true_eq]

/-- One float field of a NaN-corrupted candidate copy: either NaN or the
original value. -/
def fpMasked (a b : FP) : Prop := b = none ∨ b = a

theorem fpMasked_abs {a b : FP} (h : fpMasked a b) : fpMasked (fpAbs a) (fpAbs b) := by
  rcases h with h | h
  · exact Or.inl (by rw [h]; rfl)
  · exact Or.inr (by rw [h])

theorem fpMasked_subQ {a b : FP} (c : ℚ) (h : fpMasked a b) :
    fpMasked (fpSubQ a c) (fpSubQ b c) := by
  rcases h with h | h
  · exact Or.inl (by rw [h]; rfl)
  · exact Or.inr (by rw [h])

theorem fpMasked_mulQ {a b : FP} (c : ℚ) (h : fpMasked a b) :
    fpMasked (fpMulQ a c) (fpMulQ b c) := by
  rcases h with h | h
  · exact Or.inl (by rw [h]; rfl)
  · exact Or.inr (by rw [h])

theorem fpGtQ_masked {a b : FP} {c : ℚ} (h : fpMasked a b)
    (hx : fpGtQ b c = true) : fpGtQ a c = true := by
  rcases h with h | h
  · rw [h] at hx
    simp [fpGtQ] at hx
  · rw [h] at hx
    exact hx

theorem fpLtQ_masked {a b : FP} {c : ℚ} (h : fpMasked a b)
    (hx : fpLtQ b c = true) : fpLtQ a c = true := by
  rcases h with h | h
  · rw [h] at hx
    simp [fpLtQ] at hx
  · rw [h] at hx
    exact hx

theorem fpLt_masked {a a' b b' : FP} (ha : fpMasked a a') (hb : fpMasked b b')
    (hx : fpLt a' b' = true) : fpLt a b = true := by
  rcases ha with h | h
  · rw [h] at hx
    rcases b' with _ | y
    · simp [fpLt] at hx
    · simp [fpLt] at hx
  · rcases hb with h2 | h2
    · rw [h, h2] at hx
      rcases a with _ | x
      · simp [fpLt] at hx
      · simp [fpLt] at hx
    · rw [h, h2] at hx
      exact hx

/-- A NaN-corrupted copy of a candidate: every float-valued field is,
independently, either NaN or the original value; integer fields are
unchanged. -/
def V0CandFP.NanMasked (v v' : V0CandFP) : Prop :=
  v'.posTrackExtraId = v.posTrackExtraId
  ∧ v'.negTrackExtraId = v.negTrackExtraId
  ∧ fpMasked v.z v'.z
  ∧ fpMasked v.negativeeta v'.negativeeta
  ∧ fpMasked v.positiveeta v'.positiveeta
  ∧ v'.v0Type = v.v0Type
  ∧ fpMasked v.v0radius v'.v0radius
  ∧ fpMasked v.dcapostopv v'.dcapostopv
  ∧ fpMasked v.dcanegtopv v'.dcanegtopv
  ∧ fpMasked v.v0cosPA v'.v0cosPA
  ∧ fpMasked v.dcaV0daughters v'.dcaV0daughters
  ∧ fpMasked v.dcav0topv v'.dcav0topv
  ∧ fpMasked v.mGamma v'.mGamma
  ∧ fpMasked v.mK0Short v'.mK0Short
  ∧ fpMasked v.mLambda v'.mLambda
  ∧ fpMasked v.qtarm v'.qtarm
  ∧ fpMasked v.alpha v'.alpha
  ∧ fpMasked v.posTOFDeltaTK0Pi v'.posTOFDeltaTK0Pi
  ∧ fpMasked v.negTOFDeltaTK0Pi v'.negTOFDeltaTK0Pi
  ∧ fpMasked v.tofNSigmaK0PiPlus v'.tofNSigmaK0PiPlus
  ∧ fpMasked v.tofNSigmaK0PiMinus v'.tofNSigmaK0PiMinus
  ∧ fpMasked v.distovertotmom v'.distovertotmom
  ∧ fpMasked v.k0ShortBDTScore v'.k0ShortBDTScore
  ∧ fpMasked v.antiLambdaBDTScore v'.antiLambdaBDTScore
  ∧ (fpMasked v.posTrackExtra.itsChi2PerNcl v'.posTrackExtra.itsChi2PerNcl
    ∧ v'.posTrackExtra.itsNCls = v.posTrackExtra.itsNCls
    ∧ v'.posTrackExtra.tpcCrossedRows = v.posTrackExtra.tpcCrossedRows
    ∧ v'.posTrackExtra.detectorMap = v.posTrackExtra.detectorMap
    ∧ fpMasked v.posTrackExtra.tpcNSigmaPi v'.posTrackExtra.tpcNSigmaPi
    ∧ fpMasked v.posTrackExtra.tpcNSigmaEl v'.posTrackExtra.tpcNSigmaEl)
  ∧ (fpMasked v.negTrackExtra.itsChi2PerNcl v'.negTrackExtra.itsChi2PerNcl
    ∧ v'.negTrackExtra.itsNCls = v.negTrackExtra.itsNCls
    ∧ v'.negTrackExtra.tpcCrossedRows = v.negTrackExtra.tpcCrossedRows
    ∧ v'.negTrackExtra.detectorMap = v.negTrackExtra.detectorMap
    ∧ fpMasked v.negTrackExtra.tpcNSigmaPi v'.negTrackExtra.tpcNSigmaPi
    ∧ fpMasked v.negTrackExtra.tpcNSigmaEl v'.negTrackExtra.tpcNSigmaEl)

/-- C6 (amended): every comparison against NaN evaluates false, so a NaN
field never makes a rejection condition fire: replacing any set of
cut-relevant float fields of a passing candidate by NaN leaves it
passing, in both categories (and evaluation is total — no crash). -/
theorem claim_C6_nan_never_rejects :
    ∀ (v0Sel : V0SelectionConfig) (photonSel : PhotonSelectionConfig) (v0 v0' : V0CandFP),
      V0CandFP.NanMasked v0 v0' →
      (isV0SelectedFP v0Sel photonSel v0 false = true →
        isV0SelectedFP v0Sel photonSel v0' false = true)
      ∧ (isV0SelectedFP v0Sel photonSel v0 true = true →
        isV0SelectedFP v0Sel photonSel v0' true = true) := by
  intro v0Sel photonSel v0 v0' hmask
  obtain ⟨-, -, hz, hne, hpe, hty, hrad, hdcap, hdcan, hcos, hdau, hdtopv,
    hmg, hmk, hml, hqt, hal, htofp, htofn, hnsp, hnsn, hdist, -, -,
    ⟨hptchi, hptits, hptrows, hptdet, hptnsp, hptnse⟩,
    ⟨hntchi, hntits, hntrows, hntdet, hntnsp, hntnse⟩⟩ := hmask
  constructor
  · intro h
    rw [isV0SelectedFP_k0_iff] at h ⊢
    obtain ⟨g1, g2, g3, g4, g5, g6, g7, g8, g9, g10, g11, g12, g13, g14, g15,
      g16, g17, g18, g19, g20, g21, g22, g23, g24, g25, g26, g27, g28, g29⟩ := h
    exact ⟨fun hor => g1 (hor.imp (fpGtQ_masked (fpMasked_abs hne)) (fpGtQ_masked (fpMasked_abs hpe))),
      by rw [hty]; exact g2,
      fun hx => g3 (fpLtQ_masked hrad hx),
      fun hx => g4 (fpGtQ_masked hrad hx),
      fun hx => g5 (fpLtQ_masked (fpMasked_abs hdcap) hx),
      fun hx => g6 (fpGtQ_masked (fpMasked_abs hdcan) hx),
      fun hx => g7 (fpLtQ_masked hcos hx),
      fun hx => g8 (fpGtQ_masked hdau hx),
      fun hx => g9 (fpLtQ_masked hdtopv hx),
      fun hx => g10 (fpGtQ_masked (fpMasked_abs (fpMasked_subQ massK0Short hmk)) hx),
      fun hx => g11 (fpLtQ_masked (fpMasked_abs (fpMasked_subQ massLambda0 hml)) hx),
      by rw [hptits]; exact g12,
      by rw [hntits]; exact g13,
      fun hx => g14 ⟨hx.1, fpLtQ_masked hptchi hx.2⟩,
      fun hx => g15 ⟨hx.1, fpLtQ_masked hntchi hx.2⟩,
      by rw [hptrows]; exact g16,
      by rw [hntrows]; exact g17,
      fun hx => g18 (fpGtQ_masked (fpMasked_abs hptnsp) hx),
      fun hx => g19 (fpGtQ_masked (fpMasked_abs hntnsp) hx),
      fun hx => g20 (fpGtQ_masked (fpMasked_abs htofp) hx),
      fun hx => g21 (fpGtQ_masked (fpMasked_abs htofn) hx),
      fun hx => g22 (fpGtQ_masked (fpMasked_abs hnsp) hx),
      fun hx => g23 (fpGtQ_masked (fpMasked_abs hnsn) hx),
      by rw [hptrows]; exact g24,
      by rw [hntrows]; exact g25,
      by rw [hptdet]; exact g26,
      by rw [hntdet]; exact g27,
      fun hx => g28 (fpGtQ_masked (fpMasked_mulQ massK0Short hdist) hx),
      fun hx => g29 ⟨hx.1,
        fpLt_masked (fpMasked_mulQ v0Sel.armPodCut hqt) (fpMasked_abs hal) hx.2⟩⟩
  · intro h
    rw [isV0SelectedFP_photon_iff] at h ⊢
    obtain ⟨g1, g2, g3, g4, g5, g6, g7, g8, g9, g10, g11, g12, g13, g14, g15,
      g16, g17, g18, g19, g20, g21, g22, g23, g24⟩ := h
    exact ⟨fun hx => g1 (fpGtQ_masked hz hx),
      fun hor => g2 (hor.imp (fpGtQ_masked (fpMasked_abs hne)) (fpGtQ_masked (fpMasked_abs hpe))),
      by rw [hty]; exact g3,
      fun hx => g4 (fpLtQ_masked hrad hx),
      fun hx => g5 (fpGtQ_masked hrad hx),
      fun hx => g6 (fpLtQ_masked (fpMasked_abs hdcap) hx),
      fun hx => g7 (fpGtQ_masked (fpMasked_abs hdcan) hx),
      fun hx => g8 (fpLtQ_masked hcos hx),
      fun hx => g9 (fpGtQ_masked hdau hx),
      fun hx => g10 (fpLtQ_masked hdtopv hx),
      fun hx => g11 (fpGtQ_masked hmg hx),
      by rw [hptits]; exact g12,
      by rw [hntits]; exact g13,
      fun hx => g14 ⟨hx.1, fpLtQ_masked hptchi hx.2⟩,
      fun hx => g15 ⟨hx.1, fpLtQ_masked hntchi hx.2⟩,
      by rw [hptrows]; exact g16,
      by rw [hntrows]; exact g17,
      fun hx => g18 (fpGtQ_masked (fpMasked_abs hptnse) hx),
      fun hx => g19 (fpGtQ_masked (fpMasked_abs hntnse) hx),
      by rw [hptrows]; exact g20,
      by rw [hntrows]; exact g21,
      by rw [hptdet]; exact g22,
      by rw [hntdet]; exact g23,
      fun hx => g24 ⟨hx.1,
        fpLt_masked (fpMasked_mulQ photonSel.armPodCut hqt) (fpMasked_abs hal) hx.2⟩⟩

theorem claim_C6_nan_never_rejects_witness :
    V0CandFP.NanMasked (V0Cand.toFP testCand) {V0Cand.toFP testCand with v0cosPA := none}
    ∧ isV0SelectedFP testV0Sel testPhotonSel (V0Cand.toFP testCand) false = true
    ∧ isV0SelectedFP testV0Sel testPhotonSel
        {V0Cand.toFP testCand with v0cosPA := none} false = true := by
  have hmask : V0CandFP.NanMasked (V0Cand.toFP testCand)
      {V0Cand.toFP testCand with v0cosPA := none} := by
    simp [V0CandFP.NanMasked, fpMasked]
  have hbase : isV0SelectedFP testV0Sel testPhotonSel (V0Cand.toFP testCand) false = true := by
    rw [isV0SelectedFP_k0_iff]
    norm_num [V0Cand.toFP, DauTrackExtra.toFP, testCand, testV0Sel, testPhotonSel,
      fpGtQ, fpLtQ, fpAbs, fpSubQ, fpMulQ, fpLt, massK0Short, massLambda0,
      trackDetectorMapTPC, abs_le, le_abs, lt_abs, decide_eq_true_eq]
  exact ⟨hmask, hbase,
    (claim_C6_nan_never_rejects testV0Sel testPhotonSel (V0Cand.toFP testCand) _ hmask).1 hbase⟩

end KstarK0Gamma
